import Mathlib

/-!
Verification of the serial-monitor supervisory controller
(`rad_test_controller.py`, with the single-device variant `kernel_logger.py`).

The Python program is shallowly embedded below.  External effects are
modelled by explicit oracles threaded through the state:

* `keys`  — one entry per poll of `input_queue`: `none` means the queue was
  observed empty at that moment, `some k` means key code `k` was pending and
  is consumed by the poll (FIFO order of an asynchronous producer).
* `opens` — the outcome of each successive `serial.Serial(...)` attempt.
* `reads` — the outcome of each successive `tx2.ser.readline()` call
  (a decoded line, an `IOError`, or some other exception).
* `times` — the value returned by each successive `int(time.time())` call.

Files are append-only lists of the strings written to them; console prints
are not modelled.  Every externally visible action of the controller is
recorded in an append-only `trace`.
-/

namespace RadTest

/-! ## Protocol tokens (source lines 16–21) -/

def SIGNAL_HEARTBEAT : String := "HEARTBEAT"

def SIGNAL_POWER_CYCLE : String := "POWER_CYCLE\n"

def SIGNAL_POWER_ON : String := "POWER_ON\n"

def SIGNAL_RAD : String := "RAD\n"

def DIR_OUTPUT : String := "output"

/-- The whitespace characters removed by Python's `str.strip()` (ASCII
range): space, tab, newline, carriage return, vertical tab, form feed. -/
def isStripChar (c : Char) : Bool :=
  c = ' ' || c = '\t' || c = '\n' || c = '\r' || c = '\x0b' || c = '\x0c'

/-- Python's `str.strip()` with no argument (source line 212): remove
leading and trailing whitespace. -/
def pyStrip (s : String) : String :=
  ⟨((s.data.dropWhile isStripChar).reverse.dropWhile isStripChar).reverse⟩

/-! ## The `Device` record (source lines 23–30).
`ser` is the transport handle: `none` while disconnected, `some h` while
connected, exactly as the Python field holds `None` or a `serial.Serial`. -/

structure Device where
  id : String
  commonName : String
  baud : Nat
  timeout : Nat
  ser : Option Nat
  deriving DecidableEq, Repr

/-- The attribute names of a `Device` instance: `__slots__` from source
line 24.  The class defines no method called `readline`. -/
def Device.slotNames : List String :=
  ["id", "commonName", "baud", "timeout", "ser"]

def Device.hasAttr (a : String) : Bool :=
  Device.slotNames.contains a

/-! ## Observable actions -/

inductive Action where
  | disconnectTx2
  | disconnectArduino
  | writeArduino (tok : String)
  | connectAttempt (name : String) (ok : Bool)
  | sleepBackoff
  | readlineTx2
  | stopSignal
  | cleanUpTerminal
  deriving DecidableEq, Repr

/-- Actions that can occur inside `__connect_device` (attempt, diagnostic
backoff sleep, and the escape-path stop/cleanup). -/
def Action.connectPhase : Action → Bool
  | .connectAttempt _ _ => true
  | .sleepBackoff => true
  | .stopSignal => true
  | .cleanUpTerminal => true
  | _ => false

/-! ## `__connect_device` (source lines 111–133)

The retry loop runs `while not device.ser`: attempt to open; on failure
print a diagnostic, sleep one second, then poll the keystroke queue once;
escape (27) signals the input thread to stop, restores the terminal and
calls `sys.exit(1)`; any other key breaks out of the retry loop.  The loop
is embedded with explicit fuel; running out of fuel models the retry loop
still spinning. -/

structure ConnSt where
  dev : Device
  keys : List (Option Nat)
  opens : List Bool
  trace : List Action
  deriving DecidableEq, Repr

inductive ConnRes where
  | ok (c : ConnSt)
  | exit1 (c : ConnSt)
  | noFuel (c : ConnSt)
  deriving DecidableEq, Repr

def ConnRes.state : ConnRes → ConnSt
  | .ok c => c
  | .exit1 c => c
  | .noFuel c => c

/-- One poll of `input_queue` (`if not self.input_queue.empty(): ... get()`).
Consumes one oracle entry; `none` models the queue being empty at that
instant. -/
def pollKey : List (Option Nat) → Option Nat × List (Option Nat)
  | [] => (none, [])
  | o :: ks => (o, ks)

def connect_device : Nat → ConnSt → ConnRes
  | 0, c => .noFuel c
  | fuel + 1, c =>
    if c.dev.ser.isSome then
      .ok c
    else
      let okA := c.opens.headD false
      let c1 : ConnSt :=
        { c with
          dev := { c.dev with ser := if okA then some 0 else none }
          opens := c.opens.tail
          trace := c.trace ++ [.connectAttempt c.dev.commonName okA] }
      if okA then
        .ok c1
      else
        let c2 : ConnSt := { c1 with trace := c1.trace ++ [Action.sleepBackoff] }
        let (k, ks) := pollKey c2.keys
        let c3 : ConnSt := { c2 with keys := ks }
        match k with
        | none => connect_device fuel c3
        | some key =>
          if key = 27 then
            .exit1 { c3 with trace := c3.trace ++ [.stopSignal, .cleanUpTerminal] }
          else
            .ok c3

/-- Failed open attempts, for counting keystroke polls against retries. -/
def Action.isFailedAttempt : Action → Bool
  | .connectAttempt _ false => true
  | _ => false

def countFailed (t : List Action) : Nat :=
  t.countP Action.isFailedAttempt

/-! ## Controller state

`St` is the full run-time state of a `RadTestController` process: the two
`Device` records, the `heartbeatReceived` flag, the oracles, the open
files (append-only lists of written strings), the two filename fields set
by `run`, the effects of `stop_queue.put('stop')` / `cleanUp()`, and the
action trace. -/

inductive ReadItem where
  | line (raw : String)
  | ioErr
  | otherErr
  deriving DecidableEq, Repr

structure St where
  tx2 : Device
  arduino : Device
  heartbeatReceived : Bool
  keys : List (Option Nat)
  reads : List ReadItem
  opens : List Bool
  times : List Nat
  currentFilename : String
  kernelLogFilename : String
  outputFile : List String
  kernelLogFile : List String
  errorFile : List String
  stopSignalled : Bool
  terminalRestored : Bool
  trace : List Action
  deriving DecidableEq, Repr

/-- `int(time.time())`: consume one entry of the time oracle. -/
def readTime (s : St) : Nat × St :=
  (s.times.headD 0, { s with times := s.times.tail })

/-- `__disconnect_tx2` (source lines 149–155): if connected, close the
handle, null it, and reset `heartbeatReceived`. -/
def disconnect_tx2 (s : St) : St :=
  if s.tx2.ser.isSome then
    { s with
      tx2 := { s.tx2 with ser := none }
      heartbeatReceived := false
      trace := s.trace ++ [Action.disconnectTx2] }
  else
    s

/-- `__disconnect_arduino` (source lines 157–162). -/
def disconnect_arduino (s : St) : St :=
  if s.arduino.ser.isSome then
    { s with
      arduino := { s.arduino with ser := none }
      trace := s.trace ++ [Action.disconnectArduino] }
  else
    s

/-- `disconnect` (source lines 164–166): TX2 first, then Arduino. -/
def disconnect (s : St) : St :=
  disconnect_arduino (disconnect_tx2 s)

/-- `__connect_tx2` (source lines 135–138), threading the shared state
through the core retry loop.  On the escape path the stop signal and
terminal restore have already happened when `sys.exit(1)` fires. -/
def connect_tx2 (fuel : Nat) (s : St) : ConnRes × St :=
  let r := connect_device fuel { dev := s.tx2, keys := s.keys, opens := s.opens, trace := s.trace }
  let c := r.state
  let s' : St := { s with tx2 := c.dev, keys := c.keys, opens := c.opens, trace := c.trace }
  match r with
  | .exit1 _ => (r, { s' with stopSignalled := true, terminalRestored := true })
  | _ => (r, s')

/-- `__connect_arduino` (source lines 140–143). -/
def connect_arduino (fuel : Nat) (s : St) : ConnRes × St :=
  let r := connect_device fuel { dev := s.arduino, keys := s.keys, opens := s.opens, trace := s.trace }
  let c := r.state
  let s' : St := { s with arduino := c.dev, keys := c.keys, opens := c.opens, trace := c.trace }
  match r with
  | .exit1 _ => (r, { s' with stopSignalled := true, terminalRestored := true })
  | _ => (r, s')

/-- Result of an operation that may leave the loop, exit the process
(`sys.exit(1)` raising `SystemExit`), raise an uncaught attribute error,
or run out of fuel. -/
inductive CycleRes where
  | ok (s : St)
  | exit1 (s : St)
  | attrErr (s : St)
  | noFuel (s : St)
  deriving DecidableEq, Repr

def CycleRes.state : CycleRes → St
  | .ok s => s
  | .exit1 s => s
  | .attrErr s => s
  | .noFuel s => s

/-- The write of source line 172: `self.arduino.ser.write(SIGNAL_POWER_CYCLE)`. -/
def cycle_write (s1 : St) : St :=
  { s1 with trace := s1.trace ++ [Action.writeArduino SIGNAL_POWER_CYCLE] }

/-- `__cycle_power` (source lines 168–174): disconnect the TX2, write the
`POWER_CYCLE` token to the Arduino handle (`AttributeError` if that handle
is `None`), then reconnect the TX2. -/
def cycle_power (fuel : Nat) (s : St) : CycleRes :=
  let s1 := disconnect_tx2 s
  match s1.arduino.ser with
  | none => .attrErr s1
  | some _ =>
    match connect_tx2 fuel (cycle_write s1) with
    | (.ok _, s3) => .ok s3
    | (.exit1 _, s3) => .exit1 s3
    | (.noFuel _, s3) => .noFuel s3

/-- `__power_on` (source lines 176–178). -/
def power_on (s : St) : CycleRes :=
  match s.arduino.ser with
  | none => .attrErr s
  | some _ => .ok { s with trace := s.trace ++ [Action.writeArduino SIGNAL_POWER_ON] }

/-! ## The `run` loop (source lines 184–241) -/

/-- Result of one iteration of the `run` loop: continue, `sys.exit(code)`
(`SystemExit` propagating out of `run`), an `IOError` re-raised by
`except IOError as e: raise e`, an uncaught non-`IOError` exception
escaping `run` (e.g. `AttributeError` from the manual-cycle branch), or
loop fuel exhausted. -/
inductive StepRes where
  | next (s : St)
  | exited (code : Nat) (s : St)
  | ioError (s : St)
  | attrError (s : St)
  | noFuel (s : St)
  deriving DecidableEq, Repr

def StepRes.state : StepRes → St
  | .next s => s
  | .exited _ s => s
  | .ioError s => s
  | .attrError s => s
  | .noFuel s => s

def StepRes.isNext : StepRes → Bool
  | .next _ => true
  | _ => false

/-- The catch-all handler (source lines 238–241): print and append
`"[<time>]GENERAL ERROR\n"` to the error file, then continue the loop. -/
def catchAll (s : St) : St :=
  let (t, s1) := readTime s
  { s1 with errorFile := s1.errorFile ++ ["[" ++ toString t ++ "]" ++ "GENERAL ERROR" ++ "\n"] }

/-- The attempted secondary-channel read `self.arduino.readline()` (source
line 228): an attribute lookup of `readline` on the `Device` record, which
is not among its `__slots__` and is not a method of the class, so it
raises `AttributeError`. -/
def deviceRecordReadline (d : Device) : Except String Nat :=
  if Device.hasAttr "readline" then Except.ok (d.ser.getD 0) else Except.error "AttributeError"

/-- The kernel-log block (source lines 227–235).  `raw` is the decoded TX2
line (`lineBytes`), which is what line 229 re-processes even on the
(unreachable) success path; every failure inside the block is swallowed by
`except: pass`. -/
def kernelBlock (raw : String) (s : St) : St :=
  match deviceRecordReadline s.arduino with
  | Except.error _ => s
  | Except.ok _ =>
    let line := pyStrip raw
    if line = "" then s
    else { s with kernelLogFile := s.kernelLogFile ++ [line ++ "\n"] }

/-- The successful `tx2.ser.readline()` call: pop one read-oracle entry
and record the read (source line 211). -/
def afterRead (s : St) : St :=
  { s with reads := s.reads.tail, trace := s.trace ++ [Action.readlineTx2] }

/-- The liveness-failure branch (source lines 214–218): banner print,
`__cycle_power`, then the `errorFile.write` of line 218, whose argument
expression `"[" + str(int(time.time())) + "]" + "Not Responding: " + + "\n"`
fully evaluates its left operand (consuming one `time.time()` call) and
then raises `TypeError` on the unary plus applied to a string, so control
jumps to the bare `except`, which logs `GENERAL ERROR`.  A `SystemExit`
(escape during the reconnect retry) or an `AttributeError` raised inside
`__cycle_power` is likewise caught by the bare `except`, because the whole
branch sits inside the `try` of line 210. -/
def livenessFailure (fuel : Nat) (s1 : St) : StepRes :=
  match cycle_power fuel s1 with
  | .ok s2 => .next (catchAll (readTime s2).2)
  | .exit1 s2 => .next (catchAll s2)
  | .attrErr s2 => .next (catchAll s2)
  | .noFuel s2 => .noFuel s2

/-- The TX2 read phase: the `try` block of source lines 210–241.  If the
TX2 handle is `None`, the attribute lookup `self.tx2.ser.readline` raises
`AttributeError` inside the `try`, which the bare `except` catches. -/
def readPhase (fuel : Nat) (s : St) : StepRes :=
  match s.tx2.ser with
  | none => .next (catchAll s)
  | some _ =>
    let item := s.reads.headD ReadItem.otherErr
    let s1 := afterRead s
    match item with
    | .ioErr => .ioError s1
    | .otherErr => .next (catchAll s1)
    | .line raw =>
      let line := pyStrip raw
      if line = "" then
        if s1.heartbeatReceived then
          livenessFailure fuel s1
        else
          .next (kernelBlock raw s1)
      else if line = SIGNAL_HEARTBEAT then
        .next (kernelBlock raw { s1 with heartbeatReceived := true })
      else
        .next (kernelBlock raw { s1 with outputFile := s1.outputFile ++ [line ++ "\n"] })

/-- The escape branch: `stop_queue.put('stop')`, `cleanUp()`, `sys.exit(1)`
(source lines 198–201). -/
def escapeExit (s : St) : St :=
  { s with
    stopSignalled := true
    terminalRestored := true
    trace := s.trace ++ [Action.stopSignal, Action.cleanUpTerminal] }

/-- The manual power-cycle branch (source lines 202–204), outside the
`try`: a `SystemExit` or `AttributeError` raised inside `__cycle_power`
here escapes `run`; on normal return the iteration falls through to the
read phase. -/
def manualCycle (fuel : Nat) (s0 : St) : StepRes :=
  match cycle_power fuel s0 with
  | .ok s1 => readPhase fuel s1
  | .exit1 s1 => .exited 1 s1
  | .attrErr s1 => .attrError s1
  | .noFuel s1 => .noFuel s1

/-- The manual power-on branch (source lines 205–207). -/
def manualPowerOn (fuel : Nat) (s0 : St) : StepRes :=
  match power_on s0 with
  | .ok s1 => readPhase fuel s1
  | .exit1 s1 => .exited 1 s1
  | .attrErr s1 => .attrError s1
  | .noFuel s1 => .noFuel s1

/-- One iteration of the `while True` loop of `run` (source lines
195–241): poll the keystroke queue once, handle escape (27), manual power
cycle (88, `'X'`) and power on (80, `'P'`), then run the TX2 read phase.
The keystroke branch sits outside the `try`, so a `SystemExit` or
`AttributeError` raised there escapes `run`. -/
def runStep (fuel : Nat) (s : St) : StepRes :=
  let (k, ks) := pollKey s.keys
  let s0 : St := { s with keys := ks }
  match k with
  | none => readPhase fuel s0
  | some key =>
    if key = 27 then .exited 1 (escapeExit s0)
    else if key = 88 then manualCycle fuel s0
    else if key = 80 then manualPowerOn fuel s0
    else readPhase fuel s0

/-- The prologue of `run` (source lines 185–194): `flushInput` on both
handles (an `AttributeError` escapes `run` if either is `None`), then the
two output filenames are derived from two separate `int(time.time())`
calls with the identical format string, and both files are opened fresh
(`'w'`). -/
def runInit (s : St) : CycleRes :=
  match s.tx2.ser, s.arduino.ser with
  | some _, some _ =>
    let (t1, s1) := readTime s
    let cur := DIR_OUTPUT ++ "/output_" ++ toString t1 ++ ".txt"
    let (t2, s2) := readTime s1
    let ker := DIR_OUTPUT ++ "/output_" ++ toString t2 ++ ".txt"
    .ok { s2 with
      currentFilename := cur
      kernelLogFilename := ker
      outputFile := []
      kernelLogFile := [] }
  | _, _ => .attrErr s

/-- `n` iterations of the `run` loop. -/
def runSteps (fuel : Nat) : Nat → St → StepRes
  | 0, s => .next s
  | n + 1, s =>
    match runStep fuel s with
    | .next s' => runSteps fuel n s'
    | r => r

/-! ## The process supervisor (source lines 254–270) -/

inductive SupRes where
  | loopContinue (s : St)
  | processExit (code : Nat) (s : St)
  | processCrash (s : St)
  deriving DecidableEq, Repr

/-- The outer `while True` loop's reaction to what comes out of
`controller.run`: an `IOError` is caught (source lines 263–265), logged as
`"IO Error: <time>\n"`, and the loop falls through to
`controller.disconnect()` (line 270) and goes round again; a
`serial.SerialException` behaves the same way with the prefix
`"Serial Exception: "` (lines 260–262); a `SystemExit` matches none of the
except clauses, so the process exits with that code; any other exception
is an uncaught crash.  `none` means `run` is still looping. -/
def supervisorHandle (r : StepRes) : Option SupRes :=
  match r with
  | .ioError s =>
    let (t, s1) := readTime s
    let s2 : St := { s1 with errorFile := s1.errorFile ++ ["IO Error: " ++ toString t ++ "\n"] }
    some (SupRes.loopContinue (disconnect s2))
  | .exited c s => some (SupRes.processExit c s)
  | .attrError s => some (SupRes.processCrash s)
  | .next _ => none
  | .noFuel _ => none


def CycleRes.isOk : CycleRes → Bool
  | .ok _ => true
  | _ => false

/-! ## The spec's derived connection state

The code represents a link's connection state solely by the `ser` field
(`None` while disconnected, a handle while connected); the spec's
`DeviceLink.connectionState` is this derived state. -/

inductive ConnState where
  | Connected
  | Disconnected
  deriving DecidableEq, Repr

/-- Modelled from the spec's data model: `connectionState ∈ {Disconnected,
Connected}` of a DeviceLink, derived from the code's single `ser` field. -/
def connectionState (d : Device) : ConnState :=
  if d.ser.isSome then .Connected else .Disconnected

/-! ## Concrete fixture states -/

def tx2Connected : Device :=
  { id := "ttyUSB0", commonName := "TX2", baud := 9600, timeout := 2, ser := some 0 }

def arduinoConnected : Device :=
  { id := "ttyACM0", commonName := "Arduino", baud := 9600, timeout := 1, ser := some 1 }

/-- A session state as it looks right after both devices connected and
`run` started: both handles live, no heartbeat yet, all oracles empty. -/
def baseSt : St :=
  { tx2 := tx2Connected, arduino := arduinoConnected, heartbeatReceived := false,
    keys := [], reads := [], opens := [], times := [],
    currentFilename := "", kernelLogFilename := "",
    outputFile := [], kernelLogFile := [], errorFile := [],
    stopSignalled := false, terminalRestored := false, trace := [] }

def c1cexSt : St :=
  { baseSt with
    reads := [ReadItem.line "HEARTBEAT", ReadItem.line ""]
    opens := [true]
    times := [1, 2] }

def c1witSt : St :=
  { baseSt with
    heartbeatReceived := true
    reads := [ReadItem.line ""]
    opens := [true]
    times := [1, 2] }

def c1witSt2 : St :=
  { baseSt with reads := [ReadItem.line "HEARTBEAT\r\n"] }

def c2preSt : St :=
  { baseSt with reads := [ReadItem.line ""], times := [50, 60] }

def c2bugSt : St :=
  { baseSt with
    heartbeatReceived := true
    reads := [ReadItem.line ""]
    opens := [true]
    times := [50, 60] }

def c3witSt : St :=
  { baseSt with heartbeatReceived := true, opens := [true] }

def c4witC : ConnSt :=
  { dev := { id := "p", commonName := "TX2", baud := 9600, timeout := 2, ser := none }
    keys := [some 65]
    opens := [false, true]
    trace := [] }

def c5witC : ConnSt :=
  { dev := { id := "p", commonName := "TX2", baud := 9600, timeout := 2, ser := none }
    keys := []
    opens := [true]
    trace := [] }

def c4witC2 : ConnSt :=
  { dev := { id := "q", commonName := "TX2", baud := 9600, timeout := 2, ser := none }
    keys := []
    opens := [true]
    trace := [] }

def c6bugSt : St :=
  { baseSt with
    heartbeatReceived := true
    keys := [none, some 27]
    reads := [ReadItem.line ""]
    opens := [false]
    times := [5, 6] }

def c6preSt : St :=
  { baseSt with keys := [some 27] }

def c7witSt : St :=
  { baseSt with reads := [ReadItem.otherErr], times := [77] }

def c8witSt : St :=
  { baseSt with heartbeatReceived := true, reads := [ReadItem.ioErr], times := [80] }

def c9St : St :=
  { baseSt with times := [100, 100] }

/-! ## General lemmas about the connect retry loop -/

theorem countFailed_append (a b : List Action) :
    countFailed (a ++ b) = countFailed a + countFailed b :=
  List.countP_append _ _ _

theorem connect_device_retry (fuel : Nat) (c : ConnSt) :
    ∃ t, (connect_device fuel c).state.trace = c.trace ++ t ∧
      (∀ a ∈ t, a.connectPhase = true) ∧
      c.keys.length ≤ (connect_device fuel c).state.keys.length + countFailed t ∧
      (∀ n, Action.connectAttempt n true ∈ t →
        ((connect_device fuel c).state.dev.ser.isSome = true)) := by
  induction fuel generalizing c with
  | zero =>
    exact ⟨[], by simp [connect_device, ConnRes.state], by simp,
      by simp [connect_device, ConnRes.state], by simp⟩
  | succ fuel ih =>
    by_cases hser : c.dev.ser.isSome
    · refine ⟨[], ?_, by simp, ?_, by simp⟩ <;>
        simp [connect_device, hser, ConnRes.state]
    · cases hb : c.opens.headD false with
      | true =>
        have step : connect_device (fuel + 1) c = ConnRes.ok
            ⟨⟨c.dev.id, c.dev.commonName, c.dev.baud, c.dev.timeout, some 0⟩, c.keys,
              c.opens.tail, c.trace ++ [Action.connectAttempt c.dev.commonName true]⟩ := by
          simp only [connect_device, hser, hb, Bool.false_eq_true, if_false, if_true]
          try simp
        rw [step]
        refine ⟨[Action.connectAttempt c.dev.commonName true], ?_, ?_, ?_, ?_⟩
        · simp [ConnRes.state]
        · intro a ha; simp at ha; simp [ha, Action.connectPhase]
        · simp [ConnRes.state, countFailed, List.countP_cons, Action.isFailedAttempt]
        · intro n hn; simp [ConnRes.state]
      | false =>
        rcases hk : c.keys with _ | ⟨o, ks⟩
        · obtain ⟨t', h1, h2, h3, h4⟩ := ih
            ⟨⟨c.dev.id, c.dev.commonName, c.dev.baud, c.dev.timeout, none⟩, [],
              c.opens.tail,
              c.trace ++ [Action.connectAttempt c.dev.commonName false, Action.sleepBackoff]⟩
          have step : connect_device (fuel + 1) c = connect_device fuel
              ⟨⟨c.dev.id, c.dev.commonName, c.dev.baud, c.dev.timeout, none⟩, [],
                c.opens.tail,
                c.trace ++ [Action.connectAttempt c.dev.commonName false, Action.sleepBackoff]⟩ := by
            simp only [connect_device, hser, hb, hk, pollKey, Bool.false_eq_true, if_false]
            try simp
          rw [step]
          refine ⟨[Action.connectAttempt c.dev.commonName false, Action.sleepBackoff] ++ t',
            ?_, ?_, ?_, ?_⟩
          · rw [h1]; simp
          · intro a ha
            rcases List.mem_append.mp ha with h | h
            · simp at h; rcases h with rfl | rfl <;> simp [Action.connectPhase]
            · exact h2 a h
          · rw [countFailed_append]
            simp
          · intro n hn
            rcases List.mem_append.mp hn with h | h
            · simp at h
            · exact h4 n h
        · rcases o with _ | key
          · obtain ⟨t', h1, h2, h3, h4⟩ := ih
              ⟨⟨c.dev.id, c.dev.commonName, c.dev.baud, c.dev.timeout, none⟩, ks,
                c.opens.tail,
                c.trace ++ [Action.connectAttempt c.dev.commonName false, Action.sleepBackoff]⟩
            have step : connect_device (fuel + 1) c = connect_device fuel
                ⟨⟨c.dev.id, c.dev.commonName, c.dev.baud, c.dev.timeout, none⟩, ks,
                  c.opens.tail,
                  c.trace ++ [Action.connectAttempt c.dev.commonName false, Action.sleepBackoff]⟩ := by
              simp only [connect_device, hser, hb, hk, pollKey, Bool.false_eq_true, if_false]
              try simp
            rw [step]
            refine ⟨[Action.connectAttempt c.dev.commonName false, Action.sleepBackoff] ++ t',
              ?_, ?_, ?_, ?_⟩
            · rw [h1]; simp
            · intro a ha
              rcases List.mem_append.mp ha with h | h
              · simp at h; rcases h with rfl | rfl <;> simp [Action.connectPhase]
              · exact h2 a h
            · have h3' : ks.length ≤ (connect_device fuel
                  ⟨⟨c.dev.id, c.dev.commonName, c.dev.baud, c.dev.timeout, none⟩, ks,
                    c.opens.tail,
                    c.trace ++ [Action.connectAttempt c.dev.commonName false,
                      Action.sleepBackoff]⟩).state.keys.length + countFailed t' := by
                simpa using h3
              rw [countFailed_append]
              have hone : countFailed [Action.connectAttempt c.dev.commonName false,
                  Action.sleepBackoff] = 1 := by
                simp [countFailed, List.countP_cons, Action.isFailedAttempt]
              rw [hone]
              simp only [List.length_cons]
              omega
            · intro n hn
              rcases List.mem_append.mp hn with h | h
              · simp at h
              · exact h4 n h
          · by_cases hkey : key = 27
            · have step : connect_device (fuel + 1) c = ConnRes.exit1
                  ⟨⟨c.dev.id, c.dev.commonName, c.dev.baud, c.dev.timeout, none⟩, ks,
                    c.opens.tail,
                    c.trace ++ [Action.connectAttempt c.dev.commonName false, Action.sleepBackoff,
                      Action.stopSignal, Action.cleanUpTerminal]⟩ := by
                simp only [connect_device, hser, hb, hk, hkey, pollKey, Bool.false_eq_true,
                  if_false, if_true]
                try simp
              rw [step]
              refine ⟨[Action.connectAttempt c.dev.commonName false, Action.sleepBackoff,
                Action.stopSignal, Action.cleanUpTerminal], ?_, ?_, ?_, ?_⟩
              · simp [ConnRes.state]
              · intro a ha; simp at ha
                rcases ha with rfl | rfl | rfl | rfl <;> simp [Action.connectPhase]
              · simp [ConnRes.state, hk, countFailed, List.countP_cons, Action.isFailedAttempt]
              · intro n hn; simp at hn
            · have step : connect_device (fuel + 1) c = ConnRes.ok
                  ⟨⟨c.dev.id, c.dev.commonName, c.dev.baud, c.dev.timeout, none⟩, ks,
                    c.opens.tail,
                    c.trace ++ [Action.connectAttempt c.dev.commonName false,
                      Action.sleepBackoff]⟩ := by
                simp only [connect_device, hser, hb, hk, hkey, pollKey, Bool.false_eq_true,
                  if_false]
                try simp
              rw [step]
              refine ⟨[Action.connectAttempt c.dev.commonName false, Action.sleepBackoff],
                ?_, ?_, ?_, ?_⟩
              · simp [ConnRes.state]
              · intro a ha; simp at ha
                rcases ha with rfl | rfl <;> simp [Action.connectPhase]
              · simp [ConnRes.state, hk, countFailed, List.countP_cons, Action.isFailedAttempt]
              · intro n hn; simp at hn

/-! ## Field-preservation lemmas -/

theorem readTime_trace (s : St) : ((readTime s).2).trace = s.trace := rfl

theorem readTime_heartbeat (s : St) : ((readTime s).2).heartbeatReceived = s.heartbeatReceived := rfl

theorem readTime_kernelLog (s : St) : ((readTime s).2).kernelLogFile = s.kernelLogFile := rfl

theorem catchAll_trace (s : St) : (catchAll s).trace = s.trace := rfl

theorem catchAll_heartbeat (s : St) : (catchAll s).heartbeatReceived = s.heartbeatReceived := rfl

theorem catchAll_kernelLog (s : St) : (catchAll s).kernelLogFile = s.kernelLogFile := rfl

/-- The attempted `self.arduino.readline()` always raises, so the whole
kernel-log block is the identity on the state. -/
theorem kernelBlock_eq (raw : String) (s : St) : kernelBlock raw s = s := rfl

theorem connect_tx2_spec (fuel : Nat) (s : St) :
    ∃ t, (connect_tx2 fuel s).2.trace = s.trace ++ t ∧ (∀ a ∈ t, a.connectPhase = true) ∧
      (connect_tx2 fuel s).2.heartbeatReceived = s.heartbeatReceived ∧
      (connect_tx2 fuel s).2.arduino = s.arduino ∧
      (connect_tx2 fuel s).2.kernelLogFile = s.kernelLogFile := by
  obtain ⟨t, h1, h2, h3, h4⟩ := connect_device_retry fuel ⟨s.tx2, s.keys, s.opens, s.trace⟩
  refine ⟨t, ?_, h2, ?_, ?_, ?_⟩ <;>
    · unfold connect_tx2
      cases hr : connect_device fuel ⟨s.tx2, s.keys, s.opens, s.trace⟩ <;>
        simp_all [ConnRes.state]

theorem disconnect_tx2_spec (s : St) :
    ∃ t, (disconnect_tx2 s).trace = s.trace ++ t ∧
      (disconnect_tx2 s).kernelLogFile = s.kernelLogFile ∧
      (disconnect_tx2 s).arduino = s.arduino ∧
      (s.heartbeatReceived = true → (disconnect_tx2 s).heartbeatReceived = false →
        Action.disconnectTx2 ∈ t) := by
  by_cases hser : s.tx2.ser.isSome
  · exact ⟨[Action.disconnectTx2], by simp [disconnect_tx2, hser], by simp [disconnect_tx2, hser],
      by simp [disconnect_tx2, hser], by simp⟩
  · exact ⟨[], by simp [disconnect_tx2, hser], by simp [disconnect_tx2, hser],
      by simp [disconnect_tx2, hser], by simp [disconnect_tx2, hser]⟩

theorem cycle_power_spec (fuel : Nat) (s : St) :
    ∃ t, (cycle_power fuel s).state.trace = s.trace ++ t ∧
      (cycle_power fuel s).state.kernelLogFile = s.kernelLogFile ∧
      (s.heartbeatReceived = true → (cycle_power fuel s).state.heartbeatReceived = false →
        Action.disconnectTx2 ∈ t) := by
  obtain ⟨t1, d1, d2, d3, d4⟩ := disconnect_tx2_spec s
  unfold cycle_power
  cases ha : (disconnect_tx2 s).arduino.ser with
  | none =>
    refine ⟨t1, ?_, ?_, ?_⟩
    · simp [CycleRes.state, ha, d1]
    · simp [CycleRes.state, ha, d2]
    · simp only [ha]
      exact d4
  | some hh =>
    obtain ⟨t2, g1, g2, g3, g4, g5⟩ := connect_tx2_spec fuel (cycle_write (disconnect_tx2 s))
    have hw1 : (cycle_write (disconnect_tx2 s)).trace
        = (disconnect_tx2 s).trace ++ [Action.writeArduino SIGNAL_POWER_CYCLE] := rfl
    have hw2 : (cycle_write (disconnect_tx2 s)).heartbeatReceived
        = (disconnect_tx2 s).heartbeatReceived := rfl
    have hw3 : (cycle_write (disconnect_tx2 s)).kernelLogFile
        = (disconnect_tx2 s).kernelLogFile := rfl
    rcases hc : connect_tx2 fuel (cycle_write (disconnect_tx2 s)) with ⟨r, st⟩
    rw [hc] at g1 g3 g4 g5
    refine ⟨t1 ++ [Action.writeArduino SIGNAL_POWER_CYCLE] ++ t2, ?_, ?_, ?_⟩ <;>
      cases r <;>
        simp_all [CycleRes.state]

theorem power_on_spec (s : St) :
    ∃ t, (power_on s).state.trace = s.trace ++ t ∧
      (power_on s).state.kernelLogFile = s.kernelLogFile ∧
      (power_on s).state.heartbeatReceived = s.heartbeatReceived := by
  unfold power_on
  cases ha : s.arduino.ser with
  | none => exact ⟨[], by simp [CycleRes.state], by simp [CycleRes.state], by simp [CycleRes.state]⟩
  | some hh =>
    exact ⟨[Action.writeArduino SIGNAL_POWER_ON], by simp [CycleRes.state],
      by simp [CycleRes.state], by simp [CycleRes.state]⟩

theorem livenessFailure_spec (fuel : Nat) (s1 : St) :
    ∃ t, (livenessFailure fuel s1).state.trace = s1.trace ++ t ∧
      (livenessFailure fuel s1).state.kernelLogFile = s1.kernelLogFile ∧
      (s1.heartbeatReceived = true → (livenessFailure fuel s1).state.heartbeatReceived = false →
        Action.disconnectTx2 ∈ t) := by
  obtain ⟨t, h1, h2, h3⟩ := cycle_power_spec fuel s1
  unfold livenessFailure
  cases hc : cycle_power fuel s1 <;> rw [hc] at h1 h2 h3 <;>
    exact ⟨t, by simp_all [StepRes.state, CycleRes.state, catchAll_trace, readTime_trace],
      by simp_all [StepRes.state, CycleRes.state, catchAll_kernelLog, readTime_kernelLog],
      by simp_all [StepRes.state, CycleRes.state, catchAll_heartbeat, readTime_heartbeat]⟩

theorem readPhase_spec (fuel : Nat) (s : St) :
    ∃ t, (readPhase fuel s).state.trace = s.trace ++ t ∧
      (readPhase fuel s).state.kernelLogFile = s.kernelLogFile ∧
      (s.heartbeatReceived = true → (readPhase fuel s).state.heartbeatReceived = false →
        Action.disconnectTx2 ∈ t) := by
  unfold readPhase
  cases hser : s.tx2.ser with
  | none =>
    exact ⟨[], by simp [StepRes.state, catchAll_trace], by simp [StepRes.state, catchAll_kernelLog],
      by simp [StepRes.state, catchAll_heartbeat]⟩
  | some hh =>
    cases hitem : s.reads.headD ReadItem.otherErr with
    | ioErr =>
      exact ⟨[Action.readlineTx2], by simp [StepRes.state, afterRead],
        by simp [StepRes.state, afterRead], by simp [StepRes.state, afterRead]⟩
    | otherErr =>
      exact ⟨[Action.readlineTx2],
        by simp [StepRes.state, afterRead, catchAll_trace],
        by simp [StepRes.state, afterRead, catchAll_kernelLog],
        by simp [StepRes.state, afterRead, catchAll_heartbeat]⟩
    | line raw =>
      by_cases hline : pyStrip raw = ""
      · by_cases hhb : (afterRead s).heartbeatReceived = true
        · obtain ⟨t, h1, h2, h3⟩ := livenessFailure_spec fuel (afterRead s)
          refine ⟨[Action.readlineTx2] ++ t, ?_, ?_, ?_⟩ <;>
            simp_all [afterRead]
        · refine ⟨[Action.readlineTx2], ?_, ?_, ?_⟩ <;>
            simp_all [afterRead, kernelBlock_eq, StepRes.state]
      · by_cases hmark : pyStrip raw = SIGNAL_HEARTBEAT
        · refine ⟨[Action.readlineTx2], ?_, ?_, ?_⟩ <;>
            simp_all [afterRead, kernelBlock_eq, StepRes.state]
        · refine ⟨[Action.readlineTx2], ?_, ?_, ?_⟩ <;>
            simp_all [afterRead, kernelBlock_eq, StepRes.state]

theorem manualCycle_spec (fuel : Nat) (s0 : St) :
    ∃ t, (manualCycle fuel s0).state.trace = s0.trace ++ t ∧
      (manualCycle fuel s0).state.kernelLogFile = s0.kernelLogFile ∧
      (s0.heartbeatReceived = true → (manualCycle fuel s0).state.heartbeatReceived = false →
        Action.disconnectTx2 ∈ t) := by
  obtain ⟨t, h1, h2, h3⟩ := cycle_power_spec fuel s0
  unfold manualCycle
  cases hc : cycle_power fuel s0 with
  | ok s1 =>
    rw [hc] at h1 h2 h3
    simp only [CycleRes.state] at h1 h2 h3
    obtain ⟨t2, g1, g2, g3⟩ := readPhase_spec fuel s1
    refine ⟨t ++ t2, ?_, ?_, ?_⟩
    · rw [g1, h1, List.append_assoc]
    · rw [g2, h2]
    · intro ha hb
      by_cases hmid : s1.heartbeatReceived = true
      · exact List.mem_append_right _ (g3 hmid hb)
      · simp only [Bool.not_eq_true] at hmid
        exact List.mem_append_left _ (h3 ha hmid)
  | exit1 s1 =>
    rw [hc] at h1 h2 h3
    simp only [CycleRes.state] at h1 h2 h3
    exact ⟨t, by simp [StepRes.state, h1], by simp [StepRes.state, h2],
      fun ha hb => h3 ha (by simpa [StepRes.state] using hb)⟩
  | attrErr s1 =>
    rw [hc] at h1 h2 h3
    simp only [CycleRes.state] at h1 h2 h3
    exact ⟨t, by simp [StepRes.state, h1], by simp [StepRes.state, h2],
      fun ha hb => h3 ha (by simpa [StepRes.state] using hb)⟩
  | noFuel s1 =>
    rw [hc] at h1 h2 h3
    simp only [CycleRes.state] at h1 h2 h3
    exact ⟨t, by simp [StepRes.state, h1], by simp [StepRes.state, h2],
      fun ha hb => h3 ha (by simpa [StepRes.state] using hb)⟩

theorem manualPowerOn_spec (fuel : Nat) (s0 : St) :
    ∃ t, (manualPowerOn fuel s0).state.trace = s0.trace ++ t ∧
      (manualPowerOn fuel s0).state.kernelLogFile = s0.kernelLogFile ∧
      (s0.heartbeatReceived = true → (manualPowerOn fuel s0).state.heartbeatReceived = false →
        Action.disconnectTx2 ∈ t) := by
  obtain ⟨t, h1, h2, h3⟩ := power_on_spec s0
  unfold manualPowerOn
  cases hc : power_on s0 with
  | ok s1 =>
    rw [hc] at h1 h2 h3
    simp only [CycleRes.state] at h1 h2 h3
    obtain ⟨t2, g1, g2, g3⟩ := readPhase_spec fuel s1
    refine ⟨t ++ t2, ?_, ?_, ?_⟩
    · rw [g1, h1, List.append_assoc]
    · rw [g2, h2]
    · intro ha hb
      exact List.mem_append_right _ (g3 (by rw [h3]; exact ha) hb)
  | exit1 s1 =>
    rw [hc] at h1 h2 h3
    simp only [CycleRes.state] at h1 h2 h3
    refine ⟨t, by simp [StepRes.state, h1], by simp [StepRes.state, h2], fun ha hb => ?_⟩
    simp only [StepRes.state] at hb
    rw [h3, ha] at hb
    exact absurd hb (by simp)
  | attrErr s1 =>
    rw [hc] at h1 h2 h3
    simp only [CycleRes.state] at h1 h2 h3
    refine ⟨t, by simp [StepRes.state, h1], by simp [StepRes.state, h2], fun ha hb => ?_⟩
    simp only [StepRes.state] at hb
    rw [h3, ha] at hb
    exact absurd hb (by simp)
  | noFuel s1 =>
    rw [hc] at h1 h2 h3
    simp only [CycleRes.state] at h1 h2 h3
    refine ⟨t, by simp [StepRes.state, h1], by simp [StepRes.state, h2], fun ha hb => ?_⟩
    simp only [StepRes.state] at hb
    rw [h3, ha] at hb
    exact absurd hb (by simp)

theorem runStep_spec (fuel : Nat) (s : St) :
    ∃ t, (runStep fuel s).state.trace = s.trace ++ t ∧
      (runStep fuel s).state.kernelLogFile = s.kernelLogFile ∧
      (s.heartbeatReceived = true → (runStep fuel s).state.heartbeatReceived = false →
        Action.disconnectTx2 ∈ t) := by
  unfold runStep
  rcases hk : s.keys with _ | ⟨o, ks⟩
  · obtain ⟨t, h1, h2, h3⟩ := readPhase_spec fuel { s with keys := [] }
    exact ⟨t, by simp_all [pollKey], by simp_all [pollKey], by simp_all [pollKey]⟩
  · rcases o with _ | key
    · obtain ⟨t, h1, h2, h3⟩ := readPhase_spec fuel { s with keys := ks }
      exact ⟨t, by simp_all [pollKey], by simp_all [pollKey], by simp_all [pollKey]⟩
    · by_cases h27 : key = 27
      · refine ⟨[Action.stopSignal, Action.cleanUpTerminal], ?_, ?_, ?_⟩ <;>
          simp_all [pollKey, escapeExit, StepRes.state]
      · by_cases h88 : key = 88
        · obtain ⟨t, h1, h2, h3⟩ := manualCycle_spec fuel { s with keys := ks }
          exact ⟨t, by simp_all [pollKey], by simp_all [pollKey], by simp_all [pollKey]⟩
        · by_cases h80 : key = 80
          · obtain ⟨t, h1, h2, h3⟩ := manualPowerOn_spec fuel { s with keys := ks }
            exact ⟨t, by simp_all [pollKey], by simp_all [pollKey], by simp_all [pollKey]⟩
          · obtain ⟨t, h1, h2, h3⟩ := readPhase_spec fuel { s with keys := ks }
            exact ⟨t, by simp_all [pollKey], by simp_all [pollKey], by simp_all [pollKey]⟩

theorem disconnect_fields (s : St) :
    (disconnect s).tx2.ser = none ∧ (disconnect s).arduino.ser = none ∧
    (disconnect s).errorFile = s.errorFile := by
  unfold disconnect disconnect_arduino disconnect_tx2
  rcases h1 : s.tx2.ser with _ | a <;> rcases h2 : s.arduino.ser with _ | b <;>
    simp [h1, h2]

theorem supervisorHandle_ioError (s' : St) :
    ∃ s2, supervisorHandle (StepRes.ioError s') = some (SupRes.loopContinue s2) ∧
      s2.errorFile = s'.errorFile ++ ["IO Error: " ++ toString (s'.times.headD 0) ++ "\n"] ∧
      s2.tx2.ser = none ∧ s2.arduino.ser = none := by
  obtain ⟨d1, d2, d3⟩ := disconnect_fields
    { (readTime s').2 with
      errorFile := (readTime s').2.errorFile
        ++ ["IO Error: " ++ toString (readTime s').1 ++ "\n"] }
  refine ⟨_, rfl, ?_, d1, d2⟩
  exact d3

/-! ## Claim theorems -/

/-- C1, counterexample: feeding the run loop the read results
`["HEARTBEAT", ""]` (no keystrokes at all) makes `heartbeatReceived` go
`false → true` on the first read and then revert `true → false` on the
second (the empty read triggers a power cycle, whose `__disconnect_tx2`
resets the flag), while the loop keeps running — so the flag does not
transition exactly once and does revert. -/
theorem heartbeat_reverts_cex :
    (runSteps 9 1 c1cexSt).isNext = true ∧
    (runSteps 9 1 c1cexSt).state.heartbeatReceived = true ∧
    (runSteps 9 2 c1cexSt).isNext = true ∧
    (runSteps 9 2 c1cexSt).state.heartbeatReceived = false := by
  decide

/-- C1 (amended): in the run loop, `heartbeatReceived` becomes true on the
first read whose stripped line equals the `HEARTBEAT` marker, and it can
go from true back to false only in an iteration that performs a TX2
disconnect (the power-cycle action); absent power cycles it never
reverts. -/
theorem heartbeat_transition_amended :
    (∀ fuel s s', runStep fuel s = StepRes.next s' → s.heartbeatReceived = true →
      s'.heartbeatReceived = false →
      ∃ t, s'.trace = s.trace ++ t ∧ Action.disconnectTx2 ∈ t) ∧
    (∀ fuel s raw, s.keys = [] → s.tx2.ser.isSome = true →
      s.reads.headD ReadItem.otherErr = ReadItem.line raw →
      pyStrip raw = SIGNAL_HEARTBEAT →
      ∃ s', runStep fuel s = StepRes.next s' ∧ s'.heartbeatReceived = true) := by
  constructor
  · intro fuel s s' hr h1 h2
    obtain ⟨t, g1, g2, g3⟩ := runStep_spec fuel s
    rw [hr] at g1 g3
    simp only [StepRes.state] at g1 g3
    exact ⟨t, g1, g3 h1 h2⟩
  · intro fuel s raw hk hser hread hmark
    obtain ⟨hh, hs⟩ := Option.isSome_iff_exists.mp hser
    have hne : pyStrip raw ≠ "" := by
      rw [hmark]; simp [SIGNAL_HEARTBEAT]
    refine ⟨{ afterRead { s with keys := [] } with heartbeatReceived := true }, ?_, rfl⟩
    unfold runStep
    rw [hk]
    simp only [pollKey]
    unfold readPhase
    simp only [hs, hread]
    rw [if_neg hne, if_pos hmark, kernelBlock_eq]

/-- C1, witness for the amended theorem. -/
theorem heartbeat_transition_amended_witness :
    (∃ t, (runStep 9 c1witSt).state.trace = c1witSt.trace ++ t ∧ Action.disconnectTx2 ∈ t) ∧
    (∃ s', runStep 9 c1witSt2 = StepRes.next s' ∧ s'.heartbeatReceived = true) := by
  constructor
  · exact heartbeat_transition_amended.1 9 c1witSt ((runStep 9 c1witSt).state)
      (by decide) (by decide) (by decide)
  · exact heartbeat_transition_amended.2 9 c1witSt2 "HEARTBEAT\r\n"
      (by decide) (by decide) (by decide) (by decide)

/-- C2 (code bug at the error-record step): an empty read before liveness
is ignored (no recovery, error file untouched), and an empty read after
liveness triggers exactly one power-cycle action — but the attempt to
record the failure (source line 218) raises `TypeError` on its
`+ + "\x5cn"` operand, so the bare `except` appends `"[60]GENERAL ERROR\n"`
(using the *second* `time.time()` call) instead of a
"Not Responding" record with a timestamp. -/
theorem empty_read_liveness_behaviour :
    (runStep 9 c2preSt).isNext = true ∧
    (runStep 9 c2preSt).state.errorFile = [] ∧
    ((runStep 9 c2preSt).state.trace.countP
      fun a => a == Action.writeArduino SIGNAL_POWER_CYCLE) = 0 ∧
    (runStep 9 c2bugSt).isNext = true ∧
    ((runStep 9 c2bugSt).state.trace.countP
      fun a => a == Action.writeArduino SIGNAL_POWER_CYCLE) = 1 ∧
    (runStep 9 c2bugSt).state.errorFile = ["[60]GENERAL ERROR\n"] := by
  decide

/-- C6 (code bug in the generalisation): an escape pending before any
device I/O does exit the process with code 1, signalling the input thread
and restoring the terminal, without any `readline` — but an escape
consumed at the queue-poll inside the reconnect retry of an *automatic*
power cycle is swallowed: `sys.exit(1)` raises `SystemExit` inside the
`try` of source line 210, the bare `except` of line 238 catches it, logs
`GENERAL ERROR`, and the loop continues instead of terminating. -/
theorem escape_handling_behaviour :
    runStep 9 c6preSt = StepRes.exited 1 (escapeExit { c6preSt with keys := [] }) ∧
    (escapeExit { c6preSt with keys := [] }).stopSignalled = true ∧
    (escapeExit { c6preSt with keys := [] }).terminalRestored = true ∧
    (escapeExit { c6preSt with keys := [] }).trace
      = [Action.stopSignal, Action.cleanUpTerminal] ∧
    (runStep 9 c6bugSt).isNext = true ∧
    (runStep 9 c6bugSt).state.stopSignalled = true ∧
    (runStep 9 c6bugSt).state.terminalRestored = true ∧
    (runStep 9 c6bugSt).state.errorFile = ["[5]GENERAL ERROR\n"] := by
  decide

/-- C9 (code bug): the two output filenames of a session are computed by
the same expression from two separate `time.time()` reads, so whenever the
two reads fall in the same second (here 100) the data log and the
kernel log are the *same* file, not two distinct files. -/
theorem session_filenames_collide :
    (runInit c9St).isOk = true ∧
    (runInit c9St).state.currentFilename = "output/output_100.txt" ∧
    (runInit c9St).state.kernelLogFilename = "output/output_100.txt" ∧
    (runInit c9St).state.currentFilename = (runInit c9St).state.kernelLogFilename := by
  decide

/-- C10: the secondary-channel read calls `readline` on the `Device`
record itself (source line 228), an attribute the record does not have, so
it raises `AttributeError` before any line can be obtained, in every
iteration in which it is reached; the inner `except: pass` swallows it, so
the whole kernel block is the identity and the kernel log file never
receives a line, over any number of run-loop iterations. -/
theorem kernel_read_always_fails :
    (∀ d : Device, deviceRecordReadline d = Except.error "AttributeError") ∧
    (∀ raw s, kernelBlock raw s = s) ∧
    (∀ fuel s, (runStep fuel s).state.kernelLogFile = s.kernelLogFile) ∧
    (∀ fuel n s, (runSteps fuel n s).state.kernelLogFile = s.kernelLogFile) := by
  have h3 : ∀ fuel s, (runStep fuel s).state.kernelLogFile = s.kernelLogFile := by
    intro fuel s
    obtain ⟨t, _, h2, _⟩ := runStep_spec fuel s
    exact h2
  refine ⟨fun d => rfl, fun raw s => kernelBlock_eq raw s, h3, ?_⟩
  intro fuel n
  induction n with
  | zero => intro s; rfl
  | succ n ih =>
    intro s
    unfold runSteps
    cases hr : runStep fuel s with
    | next s1 =>
      have := h3 fuel s
      rw [hr] at this
      simp only [StepRes.state] at this
      rw [ih s1, this]
    | exited c s1 =>
      have := h3 fuel s
      rw [hr] at this
      exact this
    | ioError s1 =>
      have := h3 fuel s
      rw [hr] at this
      exact this
    | attrError s1 =>
      have := h3 fuel s
      rw [hr] at this
      exact this
    | noFuel s1 =>
      have := h3 fuel s
      rw [hr] at this
      exact this

/-- C3: every power-cycle invocation (with a live Arduino link, and under
the run-time invariant that a null TX2 handle means no liveness) performs,
in order: the TX2 disconnect exactly when the TX2 is currently connected,
then the `POWER_CYCLE` write to the Arduino, then only reconnect-phase
actions; and whenever it returns normally, `heartbeatReceived` is false. -/
theorem cycle_power_order (fuel : Nat) (s : St)
    (hard : s.arduino.ser.isSome = true)
    (hinv : s.tx2.ser = none → s.heartbeatReceived = false) :
    ∃ t, (cycle_power fuel s).state.trace =
        (s.trace ++ (if s.tx2.ser.isSome then [Action.disconnectTx2] else []))
          ++ [Action.writeArduino SIGNAL_POWER_CYCLE] ++ t ∧
      (∀ a ∈ t, a.connectPhase = true) ∧
      (∀ s', cycle_power fuel s = CycleRes.ok s' → s'.heartbeatReceived = false) := by
  obtain ⟨hh, ha⟩ := Option.isSome_iff_exists.mp hard
  obtain ⟨t2, g1, g2, g3, g4, g5⟩ := connect_tx2_spec fuel (cycle_write (disconnect_tx2 s))
  have hda : (disconnect_tx2 s).arduino = s.arduino := by
    unfold disconnect_tx2; by_cases h : s.tx2.ser.isSome <;> simp [h]
  have hwt : (cycle_write (disconnect_tx2 s)).trace
      = (disconnect_tx2 s).trace ++ [Action.writeArduino SIGNAL_POWER_CYCLE] := rfl
  have hwh : (cycle_write (disconnect_tx2 s)).heartbeatReceived
      = (disconnect_tx2 s).heartbeatReceived := rfl
  have hdt : (disconnect_tx2 s).trace
      = s.trace ++ (if s.tx2.ser.isSome then [Action.disconnectTx2] else []) := by
    unfold disconnect_tx2; by_cases h : s.tx2.ser.isSome <;> simp [h]
  have hdh : (disconnect_tx2 s).heartbeatReceived = false := by
    unfold disconnect_tx2
    by_cases h : s.tx2.ser.isSome
    · simp [h]
    · simp only [h, Bool.false_eq_true, if_false]
      exact hinv (Option.not_isSome_iff_eq_none.mp (by simpa using h))
  simp only [cycle_power]
  rcases hc : connect_tx2 fuel (cycle_write (disconnect_tx2 s)) with ⟨r, st⟩
  rw [hda, ha]
  rw [hc] at g1 g3
  refine ⟨t2, ?_, g2, ?_⟩
  · cases r <;> simp only [CycleRes.state] <;> rw [g1, hwt, hdt]
  · intro s1 hok
    cases r with
    | ok c =>
      simp only [CycleRes.ok.injEq] at hok
      rw [← hok, g3, hwh, hdh]
    | exit1 c => exact absurd hok (by simp)
    | noFuel c => exact absurd hok (by simp)

/-- C3, witness. -/
theorem cycle_power_order_witness :
    ∃ t, (cycle_power 3 c3witSt).state.trace =
        (c3witSt.trace ++ (if c3witSt.tx2.ser.isSome then [Action.disconnectTx2] else []))
          ++ [Action.writeArduino SIGNAL_POWER_CYCLE] ++ t ∧
      (∀ a ∈ t, a.connectPhase = true) ∧
      (∀ s', cycle_power 3 c3witSt = CycleRes.ok s' → s'.heartbeatReceived = false) :=
  cycle_power_order 3 c3witSt (by decide) (by decide)

/-- C4: during the connect retry loop the number of queue polls (hence of
consumed keystrokes) never exceeds the number of failed open attempts; a
pending non-escape keystroke after a failed attempt makes `connect` return
immediately with the link still disconnected (null handle) and exactly that
one keystroke consumed; and whenever a successful open attempt occurs, the
loop returns with the link connected. -/
theorem connect_retry_policy :
    (∀ fuel c, ∃ t, (connect_device fuel c).state.trace = c.trace ++ t ∧
      c.keys.length ≤ (connect_device fuel c).state.keys.length + countFailed t) ∧
    (∀ fuel c key ks, c.dev.ser = none → c.opens.headD false = false →
      c.keys = some key :: ks → ¬ key = 27 →
      ∃ c', connect_device (fuel + 1) c = ConnRes.ok c' ∧ c'.dev.ser = none ∧ c'.keys = ks) ∧
    (∀ fuel c t n, (connect_device fuel c).state.trace = c.trace ++ t →
      Action.connectAttempt n true ∈ t →
      (connect_device fuel c).state.dev.ser.isSome = true) := by
  refine ⟨?_, ?_, ?_⟩
  · intro fuel c
    obtain ⟨t, h1, _, h3, _⟩ := connect_device_retry fuel c
    exact ⟨t, h1, h3⟩
  · intro fuel c key ks hser hb hk hkey
    have hser2 : ¬ c.dev.ser.isSome = true := by simp [hser]
    refine ⟨⟨⟨c.dev.id, c.dev.commonName, c.dev.baud, c.dev.timeout, none⟩, ks, c.opens.tail,
      c.trace ++ [Action.connectAttempt c.dev.commonName false, Action.sleepBackoff]⟩,
      ?_, rfl, rfl⟩
    simp only [connect_device, hser2, hb, hk, hkey, pollKey, Bool.false_eq_true, if_false]
    try simp
  · intro fuel c t n ht hmem
    obtain ⟨t2, h1, _, _, h4⟩ := connect_device_retry fuel c
    have hteq : t = t2 := List.append_cancel_left (ht.symm.trans h1)
    exact h4 n (hteq ▸ hmem)

/-- C4, witness. -/
theorem connect_retry_policy_witness :
    (∃ t, (connect_device 3 c4witC).state.trace = c4witC.trace ++ t ∧
      c4witC.keys.length ≤ (connect_device 3 c4witC).state.keys.length + countFailed t) ∧
    (∃ c', connect_device 3 c4witC = ConnRes.ok c' ∧ c'.dev.ser = none ∧ c'.keys = []) ∧
    (connect_device 1 c4witC2).state.dev.ser.isSome = true := by
  refine ⟨connect_retry_policy.1 3 c4witC, ?_, ?_⟩
  · exact connect_retry_policy.2.1 2 c4witC 65 [] (by decide) (by decide) (by decide) (by decide)
  · exact connect_retry_policy.2.2 1 c4witC2 [Action.connectAttempt "TX2" true] "TX2"
      (by decide) (by decide)

/-- C5: the state/handle invariant.  `connectionState` (the spec state,
derived from the code single `ser` field) is `Connected` exactly when the
handle is non-null; in particular after `connect` returns, after
`disconnect` (which nulls both handles), and after a power cycle. -/
theorem link_state_handle_invariant :
    (∀ d : Device, connectionState d = ConnState.Connected ↔ ¬ d.ser = none) ∧
    (∀ fuel c c', connect_device fuel c = ConnRes.ok c' →
      ((connectionState c'.dev = ConnState.Connected → ¬ c'.dev.ser = none) ∧
       (connectionState c'.dev = ConnState.Disconnected → c'.dev.ser = none))) ∧
    (∀ s : St, (disconnect s).tx2.ser = none ∧ (disconnect s).arduino.ser = none ∧
      connectionState (disconnect s).tx2 = ConnState.Disconnected ∧
      connectionState (disconnect s).arduino = ConnState.Disconnected) ∧
    (∀ fuel s, connectionState (cycle_power fuel s).state.tx2 = ConnState.Connected ↔
      ¬ (cycle_power fuel s).state.tx2.ser = none) := by
  have base : ∀ d : Device, connectionState d = ConnState.Connected ↔ ¬ d.ser = none := by
    intro d
    unfold connectionState
    rcases hd : d.ser with _ | v <;> simp [hd]
  refine ⟨base, ?_, ?_, ?_⟩
  · intro fuel c c' _
    constructor
    · exact (base c'.dev).mp
    · intro hdis
      rcases hd : c'.dev.ser with _ | v
      · rfl
      · rw [show connectionState c'.dev = ConnState.Connected by
          unfold connectionState; rw [hd]; rfl] at hdis
        cases hdis
  · intro s
    obtain ⟨h1, h2, _⟩ := disconnect_fields s
    refine ⟨h1, h2, ?_, ?_⟩
    · unfold connectionState; rw [h1]; rfl
    · unfold connectionState; rw [h2]; rfl
  · intro fuel s
    exact base _

/-- C5, witness. -/
theorem link_state_handle_invariant_witness :
    (connectionState (connect_device 1 c5witC).state.dev = ConnState.Connected →
      ¬ (connect_device 1 c5witC).state.dev.ser = none) ∧
    (connectionState (connect_device 1 c5witC).state.dev = ConnState.Disconnected →
      (connect_device 1 c5witC).state.dev.ser = none) :=
  link_state_handle_invariant.2.1 1 c5witC ((connect_device 1 c5witC).state) (by decide)

/-- C7: when the TX2 read raises an unclassified error (neither an
`IOError` nor a shutdown signal), the bare `except` catches it, appends a
`"[<unix time>]GENERAL ERROR"` record to the error file, and the loop
continues with the session intact (devices, heartbeat state and data log
untouched). -/
theorem general_error_logged_loop_continues (fuel : Nat) (s : St)
    (hser : s.tx2.ser.isSome = true)
    (hkey : s.keys.headD none = none)
    (hread : s.reads.headD ReadItem.otherErr = ReadItem.otherErr) :
    ∃ s', runStep fuel s = StepRes.next s' ∧
      s'.errorFile = s.errorFile
        ++ ["[" ++ toString (s.times.headD 0) ++ "]" ++ "GENERAL ERROR" ++ "\n"] ∧
      s'.outputFile = s.outputFile ∧
      s'.heartbeatReceived = s.heartbeatReceived ∧
      s'.tx2 = s.tx2 ∧ s'.arduino = s.arduino := by
  obtain ⟨hh, hs⟩ := Option.isSome_iff_exists.mp hser
  rcases hk : s.keys with _ | ⟨o, ks⟩
  · refine ⟨catchAll (afterRead { s with keys := [] }), ?_, ?_, rfl, rfl, rfl, rfl⟩
    · unfold runStep
      rw [hk]
      simp only [pollKey]
      unfold readPhase
      simp only [hs, hread]
    · simp [catchAll, readTime, afterRead]
  · have ho : o = none := by rw [hk] at hkey; simpa using hkey
    subst ho
    refine ⟨catchAll (afterRead { s with keys := ks }), ?_, ?_, rfl, rfl, rfl, rfl⟩
    · unfold runStep
      rw [hk]
      simp only [pollKey]
      unfold readPhase
      simp only [hs, hread]
    · simp [catchAll, readTime, afterRead]

/-- C7, witness. -/
theorem general_error_logged_loop_continues_witness :
    ∃ s', runStep 5 c7witSt = StepRes.next s' ∧
      s'.errorFile = c7witSt.errorFile
        ++ ["[" ++ toString (c7witSt.times.headD 0) ++ "]" ++ "GENERAL ERROR" ++ "\n"] ∧
      s'.outputFile = c7witSt.outputFile ∧
      s'.heartbeatReceived = c7witSt.heartbeatReceived ∧
      s'.tx2 = c7witSt.tx2 ∧ s'.arduino = c7witSt.arduino :=
  general_error_logged_loop_continues 5 c7witSt (by decide) (by decide) (by decide)

/-- C8: an `IOError` from the TX2 read is re-raised out of the run loop
(nothing is logged locally); the outer supervisor loop catches it, appends
`"IO Error: <unix time>\n"` to the error file, disconnects both links
(null handles), and continues looping (it restarts the connect/run cycle
rather than exiting). -/
theorem io_error_propagates_supervisor_restarts (fuel : Nat) (s : St)
    (hser : s.tx2.ser.isSome = true)
    (hkey : s.keys.headD none = none)
    (hread : s.reads.headD ReadItem.otherErr = ReadItem.ioErr) :
    ∃ s', runStep fuel s = StepRes.ioError s' ∧
      s'.errorFile = s.errorFile ∧
      ∃ s2, supervisorHandle (StepRes.ioError s') = some (SupRes.loopContinue s2) ∧
        s2.errorFile = s.errorFile ++ ["IO Error: " ++ toString (s.times.headD 0) ++ "\n"] ∧
        s2.tx2.ser = none ∧ s2.arduino.ser = none := by
  obtain ⟨hh, hs⟩ := Option.isSome_iff_exists.mp hser
  have main : ∀ ks2 : List (Option Nat),
      runStep fuel s = StepRes.ioError (afterRead { s with keys := ks2 }) →
      ∃ s', runStep fuel s = StepRes.ioError s' ∧
      s'.errorFile = s.errorFile ∧
      ∃ s2, supervisorHandle (StepRes.ioError s') = some (SupRes.loopContinue s2) ∧
        s2.errorFile = s.errorFile ++ ["IO Error: " ++ toString (s.times.headD 0) ++ "\n"] ∧
        s2.tx2.ser = none ∧ s2.arduino.ser = none := by
    intro ks2 hrun
    refine ⟨afterRead { s with keys := ks2 }, hrun, rfl, ?_⟩
    obtain ⟨s2, e1, e2, e3, e4⟩ := supervisorHandle_ioError (afterRead { s with keys := ks2 })
    exact ⟨s2, e1, e2, e3, e4⟩
  rcases hk : s.keys with _ | ⟨o, ks⟩
  · refine main [] ?_
    unfold runStep
    rw [hk]
    simp only [pollKey]
    unfold readPhase
    simp only [hs, hread]
  · have ho : o = none := by rw [hk] at hkey; simpa using hkey
    subst ho
    refine main ks ?_
    unfold runStep
    rw [hk]
    simp only [pollKey]
    unfold readPhase
    simp only [hs, hread]

/-- C8, witness. -/
theorem io_error_propagates_supervisor_restarts_witness :
    ∃ s', runStep 5 c8witSt = StepRes.ioError s' ∧
      s'.errorFile = c8witSt.errorFile ∧
      ∃ s2, supervisorHandle (StepRes.ioError s') = some (SupRes.loopContinue s2) ∧
        s2.errorFile = c8witSt.errorFile
          ++ ["IO Error: " ++ toString (c8witSt.times.headD 0) ++ "\n"] ∧
        s2.tx2.ser = none ∧ s2.arduino.ser = none :=
  io_error_propagates_supervisor_restarts 5 c8witSt (by decide) (by decide) (by decide)

end RadTest
